import Mathlib

/-!
Verification development for the RuSwift/lib resource-oriented API layer.

The Python source (src/base.py, src/swagger.py, src/permissions.py) is
shallowly embedded below:

* `Dispatch` models the per-request pipeline of `BaseAsyncHttpTransport`
  and its two concrete shapes `SingleResourceAsyncHttpTransport` and
  `ManyResourceAsyncHttpTransport` (src/base.py).  Request bodies are
  observed by the code only through emptiness tests and `json.loads`, so a
  body is embedded as `ReqBody` (empty / invalid JSON / parsed JSON).
  Python exceptions that the transports raise or catch are embedded as
  the `PyExc` type threaded through `Except`.  Pydantic models appear as
  validators from JSON to a canonical dump (`PModel`); pydantic instances
  carried at runtime appear as `PyVal.model` holding their dump.
* `Routing` models `HttpRouter.register` (src/base.py).
* `Swagger` models the parts of `OpenAPIGenerator` (src/swagger.py)
  reachable from the routes `HttpRouter.register` emits: operation
  collection, component assembly and the response schemas.  Query
  parameter documentation (`_build_parameters`'s signature walk) is not
  referenced by any statement below and is not modelled.

The substrate's implicit default response headers (e.g. the default
content type Django attaches to every response) are outside the embedded
code; the `headers` field of a response tracks exactly the headers the
embedded code assigns.
-/

/-- JSON values, as produced by `json.loads` and `model_dump(mode='json')`. -/
inductive Json where
  | null : Json
  | bool : Bool → Json
  | num : Int → Json
  | str : String → Json
  | arr : List Json → Json
  | obj : List (String × Json) → Json
deriving BEq, Repr

/-- Lowercasing of an ASCII letter (`str.lower` character-wise), written
as an explicit table so that it evaluates by kernel reduction. -/
def charLower : Char → Char
  | 'A' => 'a' | 'B' => 'b' | 'C' => 'c' | 'D' => 'd' | 'E' => 'e' | 'F' => 'f'
  | 'G' => 'g' | 'H' => 'h' | 'I' => 'i' | 'J' => 'j' | 'K' => 'k' | 'L' => 'l'
  | 'M' => 'm' | 'N' => 'n' | 'O' => 'o' | 'P' => 'p' | 'Q' => 'q' | 'R' => 'r'
  | 'S' => 's' | 'T' => 't' | 'U' => 'u' | 'V' => 'v' | 'W' => 'w' | 'X' => 'x'
  | 'Y' => 'y' | 'Z' => 'z' | c => c

/-- Uppercasing of an ASCII letter (`str.upper` character-wise). -/
def charUpper : Char → Char
  | 'a' => 'A' | 'b' => 'B' | 'c' => 'C' | 'd' => 'D' | 'e' => 'E' | 'f' => 'F'
  | 'g' => 'G' | 'h' => 'H' | 'i' => 'I' | 'j' => 'J' | 'k' => 'K' | 'l' => 'L'
  | 'm' => 'M' | 'n' => 'N' | 'o' => 'O' | 'p' => 'P' | 'q' => 'Q' | 'r' => 'R'
  | 's' => 'S' | 't' => 'T' | 'u' => 'U' | 'v' => 'V' | 'w' => 'W' | 'x' => 'X'
  | 'y' => 'Y' | 'z' => 'Z' | c => c

/-- Python `s.lower()` (over the ASCII letters the embedded strings use). -/
def strLower (s : String) : String := String.mk (s.data.map charLower)

/-- Python `s.upper()`. -/
def strUpper (s : String) : String := String.mk (s.data.map charUpper)

namespace Dispatch

/-- Body of an HTTP response, as the transports build it: empty
(`HttpResponse(status=...)`), plain text (`HttpResponseBadRequest`,
error bodies), or JSON (`JsonResponse`). -/
inductive RespBody where
  | empty : RespBody
  | text : String → RespBody
  | json : Json → RespBody
deriving BEq, Repr

/-- An HTTP response: status code, body, and the headers the embedded
code explicitly assigned. -/
structure HttpResponse where
  status : Nat
  body : RespBody
  headers : List (String × String)
deriving BEq, Repr

/-- A request body through the lens of the two observations the source
makes of it: `if not request.body` and `json.loads(request.body.decode())`. -/
inductive ReqBody where
  | empty : ReqBody
  | invalidJson : String → ReqBody
  | json : Json → ReqBody
deriving BEq, Repr

/-- The parts of a Django `HttpRequest` the transports read: `method`,
`content_type`, `body`, and the query multi-map `request.GET`. -/
structure HttpRequest where
  method : String
  contentType : String
  body : ReqBody
  query : List (String × List String)

/-- Python type hints as they occur on the handler signatures and on the
Retrieve model fields that the transports coerce with: `Any`, the plain
builtins `str`/`int`/`bool`/`list`, and parameterized generic aliases
(those with `get_origin(t) is not None`, e.g. `List[T]`), which cannot
be called as constructors. -/
inductive PyType where
  | anyT | strT | intT | boolT | listT | genericT
deriving DecidableEq, Repr

/-- The Python exceptions the transports raise or catch. -/
inductive PyExc where
  | valueError : String → PyExc
  | validationError : String → PyExc
  | typeError : String → PyExc
  | http404 : PyExc
  | other : PyExc
deriving DecidableEq, Repr

/-- Runtime Python values flowing through argument binding and encoding:
`None`, builtins, pydantic instances (carrying their `model_dump`), and
pre-built response objects. -/
inductive PyVal where
  | none : PyVal
  | str : String → PyVal
  | int : Int → PyVal
  | bool : Bool → PyVal
  | list : List PyVal → PyVal
  | model : Json → PyVal
  | resp : HttpResponse → PyVal
deriving BEq, Repr

/-- Association-list lookup, mirroring Python `dict` lookup. -/
def alookup {κ α : Type} [DecidableEq κ] : List (κ × α) → κ → Option α
  | [], _ => Option.none
  | (k', v) :: rest, k => if k' = k then some v else alookup rest k

/-- Python `d[k] = v`: replace in place when present, append otherwise. -/
def ainsert {κ α : Type} [DecidableEq κ] : List (κ × α) → κ → α → List (κ × α)
  | [], k, v => [(k, v)]
  | (k', v') :: rest, k, v =>
      if k' = k then (k, v) :: rest else (k', v') :: ainsert rest k v

/-- Python `d.setdefault(k, v)`. -/
def asetdefault {κ α : Type} [DecidableEq κ] : List (κ × α) → κ → α → List (κ × α)
  | [], k, v => [(k, v)]
  | (k', v') :: rest, k, v =>
      if k' = k then (k', v') :: rest else (k', v') :: asetdefault rest k v

/-- Python `d.pop(k, None)` (dropping the value): remove the key. -/
def aerase {α : Type} (l : List (String × α)) (k : String) : List (String × α) :=
  l.filter (fun p => p.1 != k)

/-- Python `dict(**a) | dict(**b)`: the right operand wins. -/
def amerge {α : Type} (a b : List (String × α)) : List (String × α) :=
  b.foldl (fun acc kv => ainsert acc kv.1 kv.2) a

theorem alookup_ainsert_self {κ α : Type} [DecidableEq κ] (l : List (κ × α)) (k : κ) (v : α) :
    alookup (ainsert l k v) k = some v := by
  induction l with
  | nil => simp [ainsert, alookup]
  | cons hd tl ih =>
      by_cases h : hd.1 = k
      · simp [ainsert, alookup, h]
      · simpa [ainsert, alookup, h] using ih

theorem alookup_ainsert_ne {κ α : Type} [DecidableEq κ] (l : List (κ × α)) (k k' : κ) (v : α)
    (h : k ≠ k') : alookup (ainsert l k v) k' = alookup l k' := by
  induction l with
  | nil => simp [ainsert, alookup, h]
  | cons hd tl ih =>
      by_cases hh : hd.1 = k
      · simp [ainsert, alookup, hh, h]
      · simp [ainsert, alookup, hh, ih]

mutual

/-- Python `repr(...)`, as used for list elements inside `str(list)`. -/
def pyRepr : PyVal → String
  | .none => "None"
  | .str s => "\x27" ++ s ++ "\x27"
  | .int n => toString n
  | .bool b => if b then "True" else "False"
  | .list xs => "[" ++ String.intercalate ", " (pyReprList xs) ++ "]"
  | .model _ => "<model>"
  | .resp _ => "<HttpResponse>"

/-- `repr` of each element of a list. -/
def pyReprList : List PyVal → List String
  | [] => []
  | x :: xs => pyRepr x :: pyReprList xs

end

/-- Python `str(...)` of an embedded value. -/
def pyStr : PyVal → String
  | .none => "None"
  | .str s => s
  | .int n => toString n
  | .bool b => if b then "True" else "False"
  | .list xs => "[" ++ String.intercalate ", " (pyReprList xs) ++ "]"
  | .model _ => "<model>"
  | .resp _ => "<HttpResponse>"

/-- Python truthiness of an embedded value. -/
def truthy : PyVal → Bool
  | .none => false
  | .str s => s != ""
  | .int n => n != 0
  | .bool b => b
  | .list xs => !xs.isEmpty
  | .model _ => true
  | .resp _ => true

/-- Python `int(s)` on a string: optional surrounding spaces, optional
sign, at least one digit; anything else raises `ValueError`. -/
def parseIntPy (s : String) : Option Int :=
  let cs := (s.data.dropWhile (· = ' ')).reverse.dropWhile (· = ' ') |>.reverse
  let (neg, ds) :=
    match cs with
    | '-' :: rest => (true, rest)
    | '+' :: rest => (false, rest)
    | rest => (false, rest)
  if ds = [] then Option.none
  else if ds.all (·.isDigit) then
    let n := ds.foldl (fun acc c => acc * 10 + (c.toNat - '0'.toNat)) 0
    some (if neg then -(n : Int) else (n : Int))
  else Option.none

/-- Python `isinstance(val, typ)` for the plain types the code tests
(`bool` counts as `int`, as in Python). -/
def pyIsinstance : PyVal → PyType → Bool
  | .str _, .strT => true
  | .int _, .intT => true
  | .bool _, .boolT => true
  | .bool _, .intT => true
  | .list _, .listT => true
  | _, _ => false

/-- Calling a type hint as a one-argument constructor, `typ(v)`:
the coercion idiom of `_clean_args` and of the pk coercion in
`SingleResourceAsyncHttpTransport.transport`.  Failures carry the Python
exception class (`int` of a bad string is a `ValueError`; calling `Any`,
a generic alias, or `int`/`list` of an unsuitable operand is a
`TypeError`). -/
def constructE : PyType → PyVal → Except PyExc PyVal
  | .strT, v => .ok (.str (pyStr v))
  | .intT, .str s =>
      match parseIntPy s with
      | some n => .ok (.int n)
      | Option.none => .error (.valueError ("invalid literal for int() with base 10: " ++ s))
  | .intT, .int n => .ok (.int n)
  | .intT, .bool b => .ok (.int (if b then 1 else 0))
  | .intT, _ => .error (.typeError "int() argument")
  | .boolT, v => .ok (.bool (truthy v))
  | .listT, .list xs => .ok (.list xs)
  | .listT, .str s => .ok (.list (s.data.map (fun c => .str (String.singleton c))))
  | .listT, _ => .error (.typeError "object is not iterable")
  | .anyT, _ => .error (.typeError "Any cannot be instantiated")
  | .genericT, _ => .error (.typeError "generic alias is not callable")

/-- `typ is not Any and get_origin(typ) is not None`: only parameterized
generic aliases have a non-`None` origin. -/
def typGeneric : PyType → Bool
  | .genericT => true
  | _ => false

/-- The data `inspect.getfullargspec` yields of a handler: positional
argument names, the annotation map, and whether a `**kwargs` catch-all
is declared. -/
structure HandlerSpec where
  args : List String
  annots : List (String × PyType)
  varkw : Bool

/-- `BaseController.Metadata`: mutated by the business method during a
request and consulted by response encoding. -/
structure Metadata where
  total_count : Option Int := Option.none
  content_type : Option String := Option.none
  content_name : Option String := Option.none
deriving DecidableEq, Repr


/-- Outcome of awaiting a business method: a returned value together
with the metadata the call left behind, or a raised exception of one of
the classes the transports distinguish. -/
inductive HandlerResult where
  | value : PyVal → Metadata → HandlerResult
  | validationError : String → HandlerResult
  | valueError : String → HandlerResult
  | otherExc : HandlerResult

/-- A bound controller business method: its introspected signature and
its behaviour on the keyword arguments it is called with. -/
structure Handler where
  spec : HandlerSpec
  run : List (String × PyVal) → HandlerResult

/-- A pydantic model class as the transports use one: strict validation
of a JSON payload to the instance's canonical dump, or the text of the
raised `ValidationError`. -/
structure PModel where
  validate : Json → Except String Json

/-- `BaseResource`: pk name, the annotation map of the Retrieve model's
fields (`Retrieve.model_fields`), and the Create/Update model classes. -/
structure Resource where
  pk : String
  retrieveFields : List (String × PyType)
  createM : PModel
  updateM : PModel

/-- A controller class: its resource, permission and throttle checks
(each yielding `(ok, error_message)` for a request), and the business
methods reachable via `getattr`. -/
structure Controller where
  resource : Resource
  permissions : List (HttpRequest → Bool × Option String)
  throttlers : List (HttpRequest → Bool × Option String)
  methods : List (String × Handler)

/-- `BaseController.check_permission`: every permission then every
throttler, short-circuiting on the first failure; the error message is
discarded. -/
def check_permission (C : Controller) (req : HttpRequest) : Bool :=
  (C.permissions.all fun p => (p req).1) && (C.throttlers.all fun t => (t req).1)

/-- One step of the `_clean_args` loop (src/base.py:305-323), acting on
accumulated results `ret` and the remaining items.  Annotated names: a
single-element list whose element is not already of a plain annotated
type is unwrapped through the type's constructor (which may raise);
otherwise `typ(val)` is attempted and any failure silently keeps the raw
value.  Unannotated names survive (with single-element unwrapping) only
when the handler declares `**kwargs`. -/
def clean_args_go (spec : HandlerSpec) (ret : List (String × PyVal)) :
    List (String × PyVal) → Except PyExc (List (String × PyVal))
  | [] => .ok ret
  | (name, val) :: rest =>
      match alookup spec.annots name with
      | some typ =>
          let isSingle : Bool := match val with | .list [_] => true | _ => false
          if typ ≠ PyType.anyT ∧ isSingle = true ∧ typGeneric typ = false ∧
              pyIsinstance val typ = false then
            let x := match val with | .list [x] => x | v => v
            match constructE typ x with
            | .ok v' => clean_args_go spec (ret ++ [(name, v')]) rest
            | .error e => .error e
          else
            match constructE typ val with
            | .ok v' => clean_args_go spec (ret ++ [(name, v')]) rest
            | .error _ => clean_args_go spec (ret ++ [(name, val)]) rest
      | Option.none =>
          if spec.varkw then
            let v := match val with | .list [x] => x | v => v
            clean_args_go spec (ret ++ [(name, v)]) rest
          else
            clean_args_go spec ret rest

/-- `_clean_args` (src/base.py:301-324). -/
def clean_args (spec : HandlerSpec) (kwargs : List (String × PyVal)) :
    Except PyExc (List (String × PyVal)) :=
  clean_args_go spec [] kwargs



/-- `HttpResponseBadRequest(content)`. -/
def badReq (s : String) : HttpResponse := ⟨400, .text s, []⟩

/-- `resp.headers[k] = v`: replace in place when present, append otherwise. -/
def setHeader (r : HttpResponse) (k v : String) : HttpResponse :=
  { r with headers := ainsert r.headers k v }

/-- Truthiness of an optional string (`if metadata.content_type:`). -/
def truthyStr : Option String → Bool
  | some s => s != ""
  | Option.none => false

/-- Truthiness of the optional total count (`if metadata.total_count:`). -/
def truthyCount : Option Int → Bool
  | some n => n != 0
  | Option.none => false

/-- Header overrides of `SingleResourceAsyncHttpTransport.transport`
(src/base.py:397-400): the content-type and content-disposition
overrides, applied when truthy. -/
def apply_single_headers (md : Metadata) (r : HttpResponse) : HttpResponse :=
  let r := match md.content_type with
    | some ct => if ct != "" then setHeader r "Content-Type" ct else r
    | Option.none => r
  match md.content_name with
  | some cn => if cn != "" then setHeader r "Content-Disposition" cn else r
  | Option.none => r

/-- Header overrides of `ManyResourceAsyncHttpTransport.transport`
(src/base.py:455-460): `X-Total-Count` when the count is truthy, then
the content-type and content-disposition overrides as in the
single-resource shape. -/
def apply_many_headers (md : Metadata) (r : HttpResponse) : HttpResponse :=
  let r := match md.total_count with
    | some n => if n != 0 then setHeader r "X-Total-Count" (toString n) else r
    | Option.none => r
  apply_single_headers md r

/-- `item.model_dump(mode='json')` for every element of a list result;
an element that is not a pydantic instance has no `model_dump` and the
attribute access raises (propagated as an uncaught error). -/
def model_dumps : List PyVal → Option (List Json)
  | [] => some []
  | .model d :: rest => (model_dumps rest).map (d :: ·)
  | _ => Option.none

/-- Result encoding of `ManyResourceAsyncHttpTransport.transport`
(src/base.py:444-463): `None` raises `Http404`; a pre-built response is
used as-is; a list is dumped to a JSON array, anything else is dumped as
a scalar; the metadata header overrides are applied to whichever
response is about to be returned. -/
def encode_many (v : PyVal) (md : Metadata) : Except PyExc HttpResponse :=
  match v with
  | .none => .error .http404
  | .resp r => .ok (apply_many_headers md r)
  | .list xs =>
      match model_dumps xs with
      | some ds => .ok (apply_many_headers md ⟨200, .json (.arr ds), []⟩)
      | Option.none => .error .other
  | .model d => .ok (apply_many_headers md ⟨200, .json d, []⟩)
  | _ => .error .other

/-- Whether a JSON value is an object: `JsonResponse(content)` without
`safe=False` (the single-resource scalar branch) rejects anything else. -/
def isObj : Json → Bool
  | .obj _ => true
  | _ => false

/-- Result encoding of `SingleResourceAsyncHttpTransport.transport`
(src/base.py:384-403): as the collection encoding, but without the
total-count header, and the scalar branch uses a `safe` JsonResponse
that only accepts an object dump. -/
def encode_single (v : PyVal) (md : Metadata) : Except PyExc HttpResponse :=
  match v with
  | .none => .error .http404
  | .resp r => .ok (apply_single_headers md r)
  | .list xs =>
      match model_dumps xs with
      | some ds => .ok (apply_single_headers md ⟨200, .json (.arr ds), []⟩)
      | Option.none => .error .other
  | .model d =>
      if isObj d then .ok (apply_single_headers md ⟨200, .json d, []⟩)
      else .error .other
  | _ => .error .other

/-- The `except` clause shared by both transports (src/base.py:371-383,
430-443): a `ValidationError` becomes a 400 carrying the structured
error text, any other `ValueError` a 400 carrying its message, and
everything else is re-raised. -/
def catchTransportExc (e : PyExc) : Except PyExc HttpResponse :=
  match e with
  | .validationError errs => .ok ⟨400, .text errs, []⟩
  | .valueError msg => .ok ⟨400, .text msg, []⟩
  | e => .error e

/-- `dict(request.GET)`: each query parameter maps to the list of its
string values. -/
def queryKwargs (req : HttpRequest) : List (String × PyVal) :=
  req.query.map fun kv => (kv.1, PyVal.list (kv.2.map PyVal.str))

/-- The per-request result of a transport: the response (or the
exception propagated to the substrate), together with the business
method invocations that happened (method name and bound arguments). -/
structure DispatchOut where
  result : Except PyExc HttpResponse
  calls : List (String × List (String × PyVal))

/-- The tail both transports share once the arguments are bound: run
the business method inside the `try`, map the exceptions the `except`
clause catches, and encode the returned value. -/
def run_and_encode (encode : PyVal → Metadata → Except PyExc HttpResponse)
    (mname : String) (h : Handler) (bound : List (String × PyVal)) : DispatchOut :=
  match h.run bound with
  | .validationError errs => ⟨.ok ⟨400, .text errs, []⟩, [(mname, bound)]⟩
  | .valueError msg => ⟨.ok ⟨400, .text msg, []⟩, [(mname, bound)]⟩
  | .otherExc => ⟨.error .other, [(mname, bound)]⟩
  | .value v md => ⟨encode v md, [(mname, bound)]⟩

/-- `ManyResourceAsyncHttpTransport.transport` (src/base.py:414-463):
permission check, merge of query parameters into the keyword arguments,
`_clean_args`, business call, encoding. -/
def many_transport (C : Controller) (mname : String) (h : Handler)
    (req : HttpRequest) (kwargs : List (String × PyVal)) : DispatchOut :=
  if check_permission C req = false then ⟨.ok ⟨403, .empty, []⟩, []⟩
  else
    match clean_args h.spec (amerge (queryKwargs req) kwargs) with
    | .error e => ⟨catchTransportExc e, []⟩
    | .ok bound => run_and_encode encode_many mname h bound

/-- `SingleResourceAsyncHttpTransport.transport` (src/base.py:335-403):
require the pk keyword, coerce it through the Retrieve model's identity
field annotation when the handler declares `pk` (a `ValueError` becomes
`Http404`, a missing field passes the raw value through with a logged
warning), then permission check, `_clean_args` over the query
parameters with the pk dropped, business call, encoding. -/
def single_transport (C : Controller) (mname : String) (h : Handler)
    (req : HttpRequest) (kwargs : List (String × PyVal)) : DispatchOut :=
  match alookup kwargs C.resource.pk with
  | Option.none => ⟨.error .http404, []⟩
  | some pkv =>
    let coerced : Except PyExc (List (String × PyVal)) :=
      if h.spec.args.contains "pk" then
        match alookup C.resource.retrieveFields C.resource.pk with
        | Option.none => .ok (ainsert (aerase kwargs C.resource.pk) "pk" pkv)
        | some ft =>
            match constructE ft pkv with
            | .ok v' => .ok (ainsert (aerase kwargs C.resource.pk) "pk" v')
            | .error (.valueError _) => .error .http404
            | .error e => .error e
      else .ok kwargs
    match coerced with
    | .error e => ⟨.error e, []⟩
    | .ok kwargs =>
      if check_permission C req = false then ⟨.ok ⟨403, .empty, []⟩, []⟩
      else
        match clean_args h.spec (queryKwargs req) with
        | .error e => ⟨catchTransportExc e, []⟩
        | .ok extra =>
            run_and_encode encode_single mname h
              (amerge (aerase extra C.resource.pk) kwargs)

/-- Element-wise validation of a list payload (the comprehension at
src/base.py:255-260): left to right, raising the first failure. -/
def mapValidate (f : Json → Except String Json) : List Json → Except String (List Json)
  | [] => .ok []
  | x :: rest =>
      match f x with
      | .error e => .error e
      | .ok d => (mapValidate f rest).map (d :: ·)

/-- Strict validation of a request payload against a model class
(src/base.py:253-265): a list payload validates element-wise, anything
else as a single object; the result is the pydantic instance (or list of
instances) bound as `data`. -/
def validatePayload (M : PModel) : Json → Except String PyVal
  | .arr xs => (mapValidate M.validate xs).map fun ds => .list (ds.map PyVal.model)
  | j => (M.validate j).map PyVal.model

/-- `BaseAsyncHttpTransport._idempotent_method` (src/base.py:238-274):
reject a non-JSON content type (except for DELETE), and when the
operation expects a payload model, reject an empty body, parse and
validate the payload (any `ValueError`, including pydantic's
`ValidationError`, becomes a 400 with its text), bind it as `data`, and
hand over to the transport. -/
def idempotent_method (tr : HttpRequest → List (String × PyVal) → DispatchOut)
    (req : HttpRequest) (kwargs : List (String × PyVal))
    (model : Option PModel) : DispatchOut :=
  if req.contentType ≠ "application/json" ∧ strLower req.method ≠ "delete" then
    ⟨.ok (badReq ("Content Type " ++ req.contentType ++ " not allowed !")), []⟩
  else
    match model with
    | Option.none => tr req kwargs
    | some M =>
      match req.body with
      | .empty => ⟨.ok (badReq "Request has empty body !"), []⟩
      | .invalidJson e => ⟨.ok (badReq e), []⟩
      | .json payload =>
        match validatePayload M payload with
        | .error e => ⟨.ok (badReq e), []⟩
        | .ok d => tr req (ainsert kwargs "data" d)

/-- The status rewrites of `post` (200 → 201) and `delete` (200 → 204)
(src/base.py:190-192, 219-221), applied only to a returned response. -/
def rewrite_status (code : Nat) (out : DispatchOut) : DispatchOut :=
  match out.result with
  | .ok r => if r.status = 200 then ⟨.ok { r with status := code }, out.calls⟩ else out
  | _ => out

/-- `BaseAsyncHttpTransport._get_controller_method` (src/base.py:231-236):
look the lowercased verb up in the endpoint's `METHOD_MAP`. -/
def base_get_controller_method (mm : List (String × String)) (req : HttpRequest) :
    Except HttpResponse (Option String) :=
  .ok (alookup mm (strLower req.method))

/-- Whether a parsed JSON value is a list. -/
def isArr : Json → Bool
  | .arr _ => true
  | _ => false

/-- `ManyResourceAsyncHttpTransport._get_controller_method`
(src/base.py:465-487): POST requires the JSON content type and a
non-empty, well-formed JSON body, resolves through the verb map
defaulting to `create_one`, and redirects `create_one` to `create_many`
when the parsed body is a list; other verbs resolve as in the base. -/
def many_get_controller_method (mm : List (String × String)) (req : HttpRequest) :
    Except HttpResponse (Option String) :=
  if strLower req.method = "post" then
    if req.contentType = "application/json" then
      match req.body with
      | .empty => .error (badReq "Request has empty body !")
      | .invalidJson e => .error (badReq e)
      | .json d =>
        let cm := (alookup mm "post").getD "create_one"
        let cm := if cm = "create_one" ∧ isArr d then "create_many" else cm
        .ok (some cm)
    else .error (badReq ("Content Type " ++ req.contentType ++ " not allowed !"))
  else base_get_controller_method mm req

/-- `BaseAsyncHttpTransport.dispatch` and the verb methods
(src/base.py:137-221): an early response from operation resolution is
returned as-is; an unresolved or unimplemented operation is a 405; GET
merges the query parameters into the URL keyword arguments and calls
the transport; POST/PUT/DELETE go through `_idempotent_method` with the
Create model, the Update model, and no model respectively, POST
rewriting 200 to 201 and DELETE rewriting 200 to 204. -/
def dispatch_generic (gcm : Except HttpResponse (Option String)) (C : Controller)
    (tr : String → Handler → HttpRequest → List (String × PyVal) → DispatchOut)
    (req : HttpRequest) (urlKwargs : List (String × PyVal)) : DispatchOut :=
  match gcm with
  | .error resp => ⟨.ok resp, []⟩
  | .ok Option.none => ⟨.ok ⟨405, .empty, []⟩, []⟩
  | .ok (some mname) =>
    match alookup C.methods mname with
    | Option.none => ⟨.ok ⟨405, .empty, []⟩, []⟩
    | some h =>
      match strLower req.method with
      | "get" => tr mname h req (amerge (queryKwargs req) urlKwargs)
      | "post" =>
          rewrite_status 201
            (idempotent_method (tr mname h) req urlKwargs (some C.resource.createM))
      | "put" => idempotent_method (tr mname h) req urlKwargs (some C.resource.updateM)
      | "delete" => rewrite_status 204 (idempotent_method (tr mname h) req urlKwargs Option.none)
      | _ => ⟨.ok ⟨405, .empty, []⟩, []⟩

/-- A full request through a single-resource endpoint. -/
def single_handle (C : Controller) (mm : List (String × String))
    (req : HttpRequest) (urlKwargs : List (String × PyVal)) : DispatchOut :=
  dispatch_generic (base_get_controller_method mm req) C
    (fun n h => single_transport C n h) req urlKwargs

/-- A full request through a collection endpoint. -/
def many_handle (C : Controller) (mm : List (String × String))
    (req : HttpRequest) (urlKwargs : List (String × PyVal)) : DispatchOut :=
  dispatch_generic (many_get_controller_method mm req) C
    (fun n h => many_transport C n h) req urlKwargs

/-- The default `METHOD_MAP` of `SingleResourceAsyncHttpTransport`. -/
def singleMethodMap : List (String × String) :=
  [("get", "get_one"), ("put", "update_one"), ("delete", "delete_one")]

/-- The default `METHOD_MAP` of `ManyResourceAsyncHttpTransport`. -/
def manyMethodMap : List (String × String) :=
  [("get", "get_many"), ("put", "update_many"), ("delete", "delete_many")]


end Dispatch

namespace Routing

/-- Whether `pat` occurs as a contiguous substring of `s` (character
lists). -/
def hasSub (pat : List Char) : List Char → Bool
  | [] => pat.isEmpty
  | c :: rest => pat.isPrefixOf (c :: rest) || hasSub pat rest

/-- The identity-segment test of the generated routes, exactly as
`OpenAPIGenerator._is_detail_route` performs it (src/swagger.py:237-240):
the literal `/<pk>` occurs in the route pattern. -/
def hasPkSeg (route pk : String) : Bool :=
  hasSub ("/<" ++ pk ++ ">").data route.data

/-- `MethodMapping` (src/base.py:31-47): the declarative descriptor the
`action` decorator attaches, reduced to the data `register` reads from
it (the bound function itself is irrelevant to routing). -/
structure MethodMapping where
  methods : List String
  detail : Bool
  url_path : String
  func_name : String

/-- `MethodMapping.build_methods_map`: lowercased verb to function name,
last write winning on duplicates. -/
def build_methods_map (m : MethodMapping) : List (String × String) :=
  m.methods.foldl (fun d v => Dispatch.ainsert d (strLower v) m.func_name) []

/-- Which transport class a route's endpoint was generated from. -/
inductive TransportKind where
  | single | many
deriving DecidableEq, Repr

/-- The view class bound to a route: its transport shape and the
`METHOD_MAP` override `create_type_for` installed (`none` means the
transport's default map). -/
structure ViewCfg where
  kind : TransportKind
  methodMap : Option (List (String × String))
deriving DecidableEq, Repr

/-- `HttpRouter.PathConfig` (src/base.py:492-503). -/
structure PathConfig where
  route : String
  view : ViewCfg
  name : String
deriving DecidableEq, Repr

/-- `HttpRouter` state: base url and accumulated routes. -/
structure Router where
  base_url : String
  routes : List PathConfig

/-- Leading-slash stripping done by `HttpRouter.__init__` and
`register` on their url arguments. -/
def stripSlash (s : String) : String :=
  match s.data with
  | '/' :: rest => String.mk rest
  | _ => s

/-- What `register` reads from a controller class: its resource's pk
and the `MethodMapping` attributes found by the `dir()` scan (in
`dir()`'s alphabetical attribute order). -/
structure CtlRouteMeta where
  pk : String
  mappings : List MethodMapping

/-- The route `register` emits for one action descriptor: under the
single-entity path with name `{url}-retrieve-{func}` when
`detail=True`, under the collection path with name `{url}-many-{func}`
otherwise (src/base.py:549-571). -/
def actionRoute (base url pk : String) (m : MethodMapping) : PathConfig :=
  if m.detail then
    { route := base ++ "/" ++ url ++ ("/<" ++ pk ++ ">") ++ "/" ++ m.url_path
      view := ⟨.single, some (build_methods_map m)⟩
      name := url ++ "-retrieve-" ++ m.func_name }
  else
    { route := base ++ "/" ++ url ++ "/" ++ m.url_path
      view := ⟨.many, some (build_methods_map m)⟩
      name := url ++ "-many-" ++ m.func_name }

/-- `HttpRouter.register` (src/base.py:531-586): strip the leading
slash, emit one route per action descriptor, then append the two
baseline routes (single-entity CRUD under `/<pk>`, collection CRUD)
with default verb maps. -/
def register (r : Router) (url0 : String) (ctl : CtlRouteMeta) : Router :=
  let url := stripSlash url0
  { r with
      routes := r.routes
        ++ ctl.mappings.map (actionRoute r.base_url url ctl.pk)
        ++ [ { route := r.base_url ++ "/" ++ url ++ ("/<" ++ ctl.pk ++ ">")
               view := ⟨.single, Option.none⟩
               name := url ++ "-retrieve" },
             { route := r.base_url ++ "/" ++ url
               view := ⟨.many, Option.none⟩
               name := url ++ "-many" } ] }

theorem isPrefixOf_append_self (p b : List Char) : p.isPrefixOf (p ++ b) = true := by
  induction p with
  | nil => simp [List.isPrefixOf]
  | cons c cs ih => simp [List.isPrefixOf, ih]

theorem hasSub_append_left (p b : List Char) : hasSub p (p ++ b) = true := by
  cases p with
  | nil => cases b <;> simp [hasSub, List.isPrefixOf]
  | cons c cs =>
      have h := isPrefixOf_append_self (c :: cs) b
      simp only [List.cons_append] at h
      simp [hasSub, h]

theorem hasSub_append_middle (p a b : List Char) : hasSub p (a ++ p ++ b) = true := by
  induction a with
  | nil => simpa using hasSub_append_left p b
  | cons c cs ih =>
      rw [List.append_assoc] at ih
      simp [hasSub, ih]

theorem mem_of_isPrefixOf {p s : List Char} (h : p.isPrefixOf s = true) :
    ∀ x ∈ p, x ∈ s := by
  induction p generalizing s with
  | nil => intro x hx; cases hx
  | cons c cs ih =>
      cases s with
      | nil => simp [List.isPrefixOf] at h
      | cons d ds =>
          simp only [List.isPrefixOf, Bool.and_eq_true, beq_iff_eq] at h
          intro x hx
          rcases List.mem_cons.mp hx with hx | hx
          · exact List.mem_cons.mpr (Or.inl (hx.trans h.1))
          · exact List.mem_cons.mpr (Or.inr (ih h.2 x hx))

theorem hasSub_eq_false {p s : List Char} (c0 : Char)
    (hc : c0 ∈ p) (hs : ∀ c ∈ s, c ≠ c0) : hasSub p s = false := by
  induction s with
  | nil =>
      cases p with
      | nil => cases hc
      | cons x xs => simp [hasSub, List.isEmpty]
  | cons d ds ih =>
      simp only [hasSub, Bool.or_eq_false_iff]
      constructor
      · by_contra hpre
        rw [Bool.not_eq_false] at hpre
        exact hs c0 (mem_of_isPrefixOf hpre c0 hc) rfl
      · exact ih (fun c hcs => hs c (List.mem_cons.mpr (Or.inr hcs)))

end Routing

namespace Swagger

open Dispatch (alookup ainsert asetdefault)

/-- A pydantic model class as the generator sees one: its Python object
identity (`mid`, used by the identity-based dedupe), its `__name__`
(used by `_model_ref_name`), its `model_json_schema()` output with the
`$defs` entry already popped off, and that popped `$defs` map. -/
structure PydModel where
  mid : Nat
  name : String
  schema : Json
  defs : List (String × Json) := []

/-- A resource as the generator reads it off a controller class. -/
structure SwResource where
  pk : String
  create : PydModel
  update : PydModel
  retrieve : PydModel

/-- Type hints as `_schema_from_type` inspects them.  `optionalOf t`
stands for `Union[t, None]` (exactly one non-`None` member); general
unions do not occur on the embedded controller signatures and are not
modelled.  `listBareT`/`dictT` are the unparameterized builtins,
`listOf`/`dictOf` the parameterized generics. -/
inductive SwType where
  | anyT | noneT | strT | intT | floatT | boolT | dictT | listBareT
  | model : PydModel → SwType
  | optionalOf : SwType → SwType
  | listOf : SwType → SwType
  | dictOf : SwType → SwType
  | otherT

/-- Whether a schema dictionary carries a `$ref` key. -/
def hasRef (j : Json) : Bool :=
  match j with
  | .obj kvs => (alookup kvs "$ref").isSome
  | _ => false

/-- `{**sch, "nullable": True}`. -/
def objInsert (j : Json) (k : String) (v : Json) : Json :=
  match j with
  | .obj kvs => .obj (ainsert kvs k v)
  | j => j

/-- `_schema_from_type` (src/swagger.py:43-82): models become `$ref`s,
`Optional` becomes `nullable` (wrapping a `$ref` in `allOf`), lists
become arrays, dicts objects, primitives their OpenAPI types, and
anything unknown falls back to a string schema. -/
def schema_from_type : SwType → Json
  | .anyT => .obj []
  | .noneT => .obj []
  | .model m => .obj [("$ref", .str ("#/components/schemas/" ++ m.name))]
  | .optionalOf t =>
      let sch := schema_from_type t
      if hasRef sch then .obj [("allOf", .arr [sch]), ("nullable", .bool true)]
      else objInsert sch "nullable" (.bool true)
  | .listOf t => .obj [("type", .str "array"), ("items", schema_from_type t)]
  | .dictOf _ => .obj [("type", .str "object")]
  | .strT => .obj [("type", .str "string")]
  | .intT => .obj [("type", .str "integer")]
  | .floatT => .obj [("type", .str "number")]
  | .boolT => .obj [("type", .str "boolean")]
  | .dictT => .obj [("type", .str "object")]
  | .listBareT => .obj [("type", .str "array")]
  | .otherT => .obj [("type", .str "string")]

/-- `OpenAPIGenerator._collect_models_from_type` (src/swagger.py:165-179):
the pydantic models reachable through a hint (through `Optional` and
`List`). -/
def collect_models_from_type : SwType → List PydModel
  | .model m => [m]
  | .optionalOf t => collect_models_from_type t
  | .listOf t => collect_models_from_type t
  | _ => []

/-- A controller method as the generator introspects it: its
`__annotations__` (parameter and `return` hints). -/
structure SwHandler where
  annots : List (String × SwType)

/-- A controller class as the generator reads it: `__name__`, resource,
and the methods reachable via `getattr`/`hasattr`. -/
structure SwController where
  name : String
  resource : SwResource
  handlers : List (String × SwHandler)

/-- `hasattr(controller, "create_one") or hasattr(controller, "create_many")`. -/
def hasCreate (c : SwController) : Bool :=
  (alookup c.handlers "create_one").isSome || (alookup c.handlers "create_many").isSome

/-- A route as the generator walks it: its pattern, the view class's
`METHOD_MAP`, and the view class's controller. -/
structure SwRoute where
  route : String
  methodMap : List (String × String)
  ctl : SwController

/-- `OpenAPIGenerator._is_detail_route` (src/swagger.py:237-240). -/
def is_detail_route (route pk : String) : Bool :=
  Routing.hasPkSeg route pk

/-- `OpenAPIGenerator._is_many_route` (src/swagger.py:242-244). -/
def is_many_route (route pk : String) : Bool :=
  !Routing.hasPkSeg route pk

/-- `_Operation` (src/swagger.py:110-117). -/
structure Op where
  method : String
  ctl : SwController
  handler_name : String
  resource : SwResource
  detail : Bool

/-- The key of the final duplicate-removal dict in
`_collect_operations` (src/swagger.py:230-235). -/
def opKey (o : Op) : String × String × String × Bool :=
  (o.method, o.ctl.name, o.handler_name, o.detail)

/-- The operations one route contributes (src/swagger.py:189-228): one
per `METHOD_MAP` entry, plus a synthesized POST for a collection route
whose controller can create. -/
def opsOfRoute (r : SwRoute) : List Op :=
  (r.methodMap.map fun vm =>
    { method := strUpper vm.1, ctl := r.ctl, handler_name := vm.2,
      resource := r.ctl.resource,
      detail := is_detail_route r.route r.ctl.resource.pk })
  ++ (if is_many_route r.route r.ctl.resource.pk ∧ hasCreate r.ctl = true then
        [{ method := "POST", ctl := r.ctl, handler_name := "create_one",
           resource := r.ctl.resource, detail := false }]
      else [])

/-- `OpenAPIGenerator._collect_operations` (src/swagger.py:181-235):
all routes' operations, deduplicated through a dict keyed by
(method, controller name, handler name, detail). -/
def collect_operations (routes : List SwRoute) : List Op :=
  (((routes.map opsOfRoute).flatten).foldl
    (fun uniq o => ainsert uniq (opKey o) o) []).map (·.2)

/-- The models one operation contributes to the component pool
(src/swagger.py:130-143): the resource's three schema variants plus
every model reachable from the handler's type hints. -/
def modelsOfOp (o : Op) : List PydModel :=
  [o.resource.create, o.resource.update, o.resource.retrieve]
  ++ (match alookup o.ctl.handlers o.handler_name with
      | some h => ((h.annots.map (·.2)).map collect_models_from_type).flatten
      | Option.none => [])

/-- `OpenAPIGenerator._dedupe_models` (src/swagger.py:156-163): keep
the first occurrence of each model object (identity-based `seen` set). -/
def dedupe_models (ms : List PydModel) : List PydModel :=
  (ms.foldl
    (fun (acc : List PydModel × List Nat) m =>
      if acc.2.contains m.mid then acc else (acc.1 ++ [m], acc.2 ++ [m.mid]))
    ([], [])).1

/-- `_pydantic_components` (src/swagger.py:85-103): for each model, the
popped `$defs` are merged with `setdefault`, then the model's own
schema is assigned under its `__name__` (overwriting an earlier entry
of the same name). -/
def pydantic_components (models : List PydModel) : List (String × Json) :=
  models.foldl
    (fun schemas m =>
      ainsert (m.defs.foldl (fun s dv => asetdefault s dv.1 dv.2) schemas) m.name m.schema)
    []

/-- `OpenAPIGenerator._build_request_body` (src/swagger.py:355-384):
PUT requires the Update schema; POST accepts one Create or an array of
Create (`oneOf`); other verbs have no request body. -/
def build_request_body (o : Op) : Option Json :=
  if o.method = "PUT" then
    some (.obj [("required", .bool true),
      ("content", .obj [("application/json", .obj [("schema",
        .obj [("$ref", .str ("#/components/schemas/" ++ o.resource.update.name))])])])])
  else if o.method = "POST" then
    let cref : Json := .obj [("$ref", .str ("#/components/schemas/" ++ o.resource.create.name))]
    some (.obj [("required", .bool true),
      ("content", .obj [("application/json", .obj [("schema",
        .obj [("oneOf", .arr [cref, .obj [("type", .str "array"), ("items", cref)]])])])])])
  else Option.none

/-- The convention-based response schema of `_build_responses`
(src/swagger.py:393-409), used when the handler has no return hint. -/
def conventionSchema (o : Op) : Json :=
  let retrRef : Json := .obj [("$ref", .str ("#/components/schemas/" ++ o.resource.retrieve.name))]
  if o.method = "GET" then
    if o.detail then retrRef
    else .obj [("type", .str "array"), ("items", retrRef)]
  else if o.method = "POST" then
    .obj [("oneOf", .arr [retrRef, .obj [("type", .str "array"), ("items", retrRef)]])]
  else if o.method = "PUT" then retrRef
  else .obj []

/-- `OpenAPIGenerator._build_responses` (src/swagger.py:386-420): the
200 schema comes from the handler's return hint when present, from the
CRUD conventions otherwise; 400/403/404/429 are always documented. -/
def build_responses (o : Op) : Json :=
  let schema :=
    match alookup o.ctl.handlers o.handler_name with
    | some h =>
        match alookup h.annots "return" with
        | some t => schema_from_type t
        | Option.none => conventionSchema o
    | Option.none => conventionSchema o
  .obj [
    ("200", .obj [("description", .str "OK"),
      ("content", .obj [("application/json", .obj [("schema", schema)])])]),
    ("400", .obj [("description", .str "Bad Request")]),
    ("403", .obj [("description", .str "Forbidden")]),
    ("404", .obj [("description", .str "Not Found")]),
    ("429", .obj [("description", .str "Too Many Requests")])]

/-- Substring test on strings (Python `in`). -/
def containsStr (s pat : String) : Bool :=
  Routing.hasSub pat.data s.data

/-- `OpenAPIGenerator._build_parameters`, path-parameter part
(src/swagger.py:320-330): a required string path parameter for the
identity segment of a detail route.  The query-parameter documentation
built from the handler signature is not consulted by any statement in
this development and is not modelled. -/
def build_parameters (path_str : String) (o : Op) : List Json :=
  if o.detail ∧ containsStr path_str ("/\x7b" ++ o.resource.pk ++ "\x7d") then
    [.obj [("name", .str o.resource.pk), ("in", .str "path"),
           ("required", .bool true), ("schema", .obj [("type", .str "string")])]]
  else []

/-- `OpenAPIGenerator._build_operation` (src/swagger.py:298-318). -/
def build_operation (path_str : String) (o : Op) : Json :=
  .obj ([
    ("summary", .str (o.ctl.name ++ "." ++ o.handler_name)),
    ("tags", .arr [.str o.ctl.name]),
    ("parameters", .arr (build_parameters path_str o)),
    ("responses", build_responses o)]
    ++ (match build_request_body o with
        | some rb => [("requestBody", rb)]
        | Option.none => []))

/-- Replace every (non-overlapping, leftmost-first) occurrence of a
non-empty pattern, Python `str.replace`.  Each step consumes at least
one character, so a fuel equal to the input length makes the recursion
structural (the fuel-exhausted case is unreachable). -/
def replaceSubAux (pat repl : List Char) : Nat → List Char → List Char
  | _, [] => []
  | 0, s => s
  | fuel + 1, c :: rest =>
      if pat ≠ [] ∧ pat.isPrefixOf (c :: rest) then
        repl ++ replaceSubAux pat repl fuel ((c :: rest).drop pat.length)
      else
        c :: replaceSubAux pat repl fuel rest

/-- Python `s.replace(pat, repl)` on character lists. -/
def replaceSub (pat repl s : List Char) : List Char :=
  replaceSubAux pat repl s.length s

/-- `raw.replace(f"/<{pk}>", f"/{{{pk}}}")` (src/swagger.py:261). -/
def pathOa (route pk : String) : String :=
  String.mk (replaceSub ("/<" ++ pk ++ ">").data ("/\x7b" ++ pk ++ "\x7d").data route.data)

/-- `'/' + p` when the grouped path lacks a leading slash
(src/swagger.py:291-294). -/
def apiPath (p : String) : String :=
  match p.data with
  | '/' :: _ => p
  | _ => "/" ++ p

/-- The per-route accumulation of `_build_paths` (src/swagger.py:250-283):
group one operation per verb under the OpenAPI-converted path, and
inject the synthesized POST for collection routes of creating
controllers. -/
def byPathOfRoute (bp : List (String × List (String × Op))) (r : SwRoute) :
    List (String × List (String × Op)) :=
  let pk := r.ctl.resource.pk
  let p := pathOa r.route pk
  let assign := fun (bp : List (String × List (String × Op))) (verb : String) (o : Op) =>
    match alookup bp p with
    | some item => ainsert bp p (ainsert item verb o)
    | Option.none => bp ++ [(p, [(verb, o)])]
  let bp := r.methodMap.foldl
    (fun bp vm =>
      assign bp (strLower vm.1)
        { method := strUpper vm.1, ctl := r.ctl, handler_name := vm.2,
          resource := r.ctl.resource, detail := is_detail_route r.route pk })
    bp
  if is_many_route r.route pk ∧ hasCreate r.ctl = true then
    assign bp "post"
      { method := "POST", ctl := r.ctl, handler_name := "create_one",
        resource := r.ctl.resource, detail := false }
  else bp

/-- `OpenAPIGenerator._build_paths` (src/swagger.py:246-296). -/
def build_paths (routes : List SwRoute) : List (String × Json) :=
  let by_path := routes.foldl byPathOfRoute []
  by_path.map fun pm =>
    (apiPath pm.1, Json.obj (pm.2.map fun mo => (mo.1, build_operation pm.1 mo.2)))

/-- The two build products of `OpenAPIGenerator.build` (src/swagger.py:126-154)
that the statements below inspect: the `paths` map and
`components.schemas`.  The surrounding constants (`openapi`, `info`)
carry no claim-relevant content. -/
structure OpenAPIDoc where
  paths : List (String × Json)
  componentsSchemas : List (String × Json)

/-- `OpenAPIGenerator.build` (src/swagger.py:126-154): collect and
deduplicate operations, pool and deduplicate the models they mention,
assemble components and paths. -/
def buildDoc (routes : List SwRoute) : OpenAPIDoc :=
  let ops := collect_operations routes
  let models := dedupe_models ((ops.map modelsOfOp).flatten)
  { paths := build_paths routes
    componentsSchemas := pydantic_components models }

/-- Extract the 200-response schema of the `get` operation documented
at a path of the built document. -/
def collectionGetSchema (doc : OpenAPIDoc) (p : String) : Option Json :=
  match alookup doc.paths p with
  | some (Json.obj item) =>
      match alookup item "get" with
      | some (Json.obj op) =>
          match alookup op "responses" with
          | some (Json.obj resps) =>
              match alookup resps "200" with
              | some (Json.obj r200) =>
                  match alookup r200 "content" with
                  | some (Json.obj content) =>
                      match alookup content "application/json" with
                      | some (Json.obj cj) => alookup cj "schema"
                      | _ => Option.none
                  | _ => Option.none
              | _ => Option.none
          | _ => Option.none
      | _ => Option.none
  | _ => Option.none

/-- The round-trip property of claim C9, for the collection route `r`
of a registered controller within the route table `routes`: the
documented collection GET response schema is an array of `$ref`s naming
the controller's Retrieve schema key, and `components.schemas` holds
exactly that controller's Retrieve schema under that key. -/
def roundTrip (routes : List SwRoute) (r : SwRoute) : Prop :=
  let doc := buildDoc routes
  let n := r.ctl.resource.retrieve.name
  collectionGetSchema doc (apiPath (pathOa r.route r.ctl.resource.pk)) =
    some (.obj [("type", .str "array"),
                ("items", .obj [("$ref", .str ("#/components/schemas/" ++ n))])])
  ∧ alookup doc.componentsSchemas n = some r.ctl.resource.retrieve.schema

/-- The two baseline routes `HttpRouter.register` emits for one
controller (src/base.py:572-586), as the generator sees them: the
single-entity route with `SingleResourceAsyncHttpTransport`'s default
`METHOD_MAP` and the collection route with
`ManyResourceAsyncHttpTransport`'s. -/
def baselineRoutes (base url : String) (ctl : SwController) : List SwRoute :=
  [ { route := base ++ "/" ++ url ++ ("/<" ++ ctl.resource.pk ++ ">")
      methodMap := Dispatch.singleMethodMap, ctl := ctl },
    { route := base ++ "/" ++ url
      methodMap := Dispatch.manyMethodMap, ctl := ctl } ]

end Swagger

section ClaimFixtures

open Dispatch

/-- A permissive pydantic model: validation succeeds and dumps the
payload unchanged (the behavior of the base `extra=Extra.allow` schemas
on well-formed payloads). -/
def okModel : PModel := ⟨fun j => .ok j⟩

/-- A handler with the given introspected signature whose business
behaviour is a fixed outcome. -/
def mkHandler (args : List String) (anns : List (String × PyType)) (vk : Bool)
    (res : HandlerResult) : Handler :=
  ⟨⟨args, anns, vk⟩, fun _ => res⟩

/-- The sample resource shape: pk `id`, Retrieve identity field typed
`int`, permissive Create/Update models. -/
def sampleRes : Resource where
  pk := "id"
  retrieveFields := [("id", PyType.intT)]
  createM := okModel
  updateM := okModel

/-- `get_many(self, order_by: Any = 'id', limit: int = None, offset: Any = None, **filters)`
with a fixed outcome. -/
def getManyHandler (res : HandlerResult) : Handler :=
  mkHandler ["self", "order_by", "limit", "offset"]
    [("order_by", PyType.anyT), ("limit", PyType.intT), ("offset", PyType.anyT)] true res

/-- `get_one(self, pk: int, **filters)` with a fixed outcome. -/
def getOneHandler (res : HandlerResult) : Handler :=
  mkHandler ["self", "pk"] [("pk", PyType.intT)] true res

/-- A sample-resource controller exposing only `get_many`. -/
def mkGetManyCtl (res : HandlerResult) : Controller where
  resource := sampleRes
  permissions := []
  throttlers := []
  methods := [("get_many", getManyHandler res)]

/-- A sample-resource controller exposing only `get_one`. -/
def mkGetOneCtl (res : HandlerResult) : Controller where
  resource := sampleRes
  permissions := []
  throttlers := []
  methods := [("get_one", getOneHandler res)]

/-- A plain GET request with no query parameters. -/
def reqGET : HttpRequest := ⟨"GET", "", .empty, []⟩

theorem model_dumps_map (ds : List Json) : model_dumps (ds.map PyVal.model) = some ds := by
  induction ds with
  | nil => rfl
  | cons d rest ih => simp [model_dumps, ih]

end ClaimFixtures

section ClaimC1

open Dispatch

/-- C1: the claim asserts that an empty collection result yields a 404.
On the code, an empty list is not `None`: `GET` on a collection whose
`get_many` returns `[]` produces a 200 response whose body is the empty
JSON array, not a 404. -/
theorem C1_counterexample :
    (many_handle (mkGetManyCtl (.value (.list []) {})) manyMethodMap reqGET []).result
      = .ok ⟨200, .json (.arr []), []⟩
    ∧ (many_handle (mkGetManyCtl (.value (.list []) {})) manyMethodMap reqGET []).result
      ≠ .error .http404 := by
  have h1 : (many_handle (mkGetManyCtl (.value (.list []) {})) manyMethodMap reqGET []).result
      = .ok ⟨200, .json (.arr []), []⟩ := rfl
  exact ⟨h1, fun h => Except.noConfusion (h1.symm.trans h)⟩

/-- C1 (amended): the encode step maps a `None` result (and only a
`None` result) to a 404; an empty list is encoded like any list, as a
200 whose body is the JSON array of the items' dumps (`[]` when empty);
with unset metadata a raw pre-built response object is passed through
unchanged; a scalar result is encoded as a 200 JSON object.  Shown on
both the collection and the single-entity engine. -/
theorem C1_theorem :
    (∀ md : Metadata,
      (many_handle (mkGetManyCtl (.value .none md)) manyMethodMap reqGET []).result
        = .error .http404)
    ∧ (∀ r : HttpResponse,
      (many_handle (mkGetManyCtl (.value (.resp r) {})) manyMethodMap reqGET []).result
        = .ok r)
    ∧ (∀ ds : List Json,
      (many_handle (mkGetManyCtl (.value (.list (ds.map PyVal.model)) {})) manyMethodMap reqGET []).result
        = .ok ⟨200, .json (.arr ds), []⟩)
    ∧ (∀ d : Json,
      (many_handle (mkGetManyCtl (.value (.model d) {})) manyMethodMap reqGET []).result
        = .ok ⟨200, .json d, []⟩)
    ∧ (∀ md : Metadata,
      (single_handle (mkGetOneCtl (.value .none md)) singleMethodMap reqGET
        [("id", PyVal.str "7")]).result = .error .http404) := by
  refine ⟨fun md => ?_, fun r => ?_, fun ds => ?_, fun d => ?_, fun md => ?_⟩
  · show (run_and_encode encode_many "get_many" (getManyHandler (.value .none md)) []).result = _
    simp [run_and_encode, getManyHandler, mkHandler, encode_many]
  · show (run_and_encode encode_many "get_many" (getManyHandler (.value (.resp r) {})) []).result = _
    simp [run_and_encode, getManyHandler, mkHandler, encode_many, apply_many_headers,
      apply_single_headers]
  · show (run_and_encode encode_many "get_many"
      (getManyHandler (.value (.list (ds.map PyVal.model)) {})) []).result = _
    simp [run_and_encode, getManyHandler, mkHandler, encode_many, model_dumps_map,
      apply_many_headers, apply_single_headers]
  · show (run_and_encode encode_many "get_many" (getManyHandler (.value (.model d) {})) []).result = _
    simp [run_and_encode, getManyHandler, mkHandler, encode_many, apply_many_headers,
      apply_single_headers]
  · show (run_and_encode encode_single "get_one" (getOneHandler (.value .none md))
      [("pk", PyVal.int 7)]).result = _
    simp [run_and_encode, getOneHandler, mkHandler, encode_single]

end ClaimC1

section ClaimC10

open Dispatch

/-- C10: the collection engine attaches `X-Total-Count` exactly when
the controller's `Metadata.total_count` is truthy after the business
call: an unset count and a zero count leave the header off (an empty
collection can never carry `X-Total-Count: 0`); a non-zero count
attaches it with the count as value. -/
theorem C10_theorem :
    (∀ ds : List Json,
      (many_handle (mkGetManyCtl (.value (.list (ds.map PyVal.model)) {})) manyMethodMap reqGET []).result
        = .ok ⟨200, .json (.arr ds), []⟩)
    ∧ (∀ ds : List Json,
      (many_handle (mkGetManyCtl (.value (.list (ds.map PyVal.model))
          { total_count := some 0 })) manyMethodMap reqGET []).result
        = .ok ⟨200, .json (.arr ds), []⟩)
    ∧ (∀ (ds : List Json) (n : Int), n ≠ 0 →
      (many_handle (mkGetManyCtl (.value (.list (ds.map PyVal.model))
          { total_count := some n })) manyMethodMap reqGET []).result
        = .ok ⟨200, .json (.arr ds), [("X-Total-Count", toString n)]⟩) := by
  refine ⟨fun ds => ?_, fun ds => ?_, fun ds n hn => ?_⟩
  · show (run_and_encode encode_many "get_many"
      (getManyHandler (.value (.list (ds.map PyVal.model)) {})) []).result = _
    simp [run_and_encode, getManyHandler, mkHandler, encode_many, model_dumps_map,
      apply_many_headers, apply_single_headers]
  · show (run_and_encode encode_many "get_many"
      (getManyHandler (.value (.list (ds.map PyVal.model)) { total_count := some 0 })) []).result = _
    simp [run_and_encode, getManyHandler, mkHandler, encode_many, model_dumps_map,
      apply_many_headers, apply_single_headers]
  · show (run_and_encode encode_many "get_many"
      (getManyHandler (.value (.list (ds.map PyVal.model)) { total_count := some n })) []).result = _
    simp [run_and_encode, getManyHandler, mkHandler, encode_many, model_dumps_map,
      apply_many_headers, apply_single_headers, setHeader, ainsert, hn]

/-- C10 witness: at two stored items with `total_count = 2`, the header
is attached with value `2`. -/
theorem C10_witness :
    (2 : Int) ≠ 0
    ∧ (many_handle (mkGetManyCtl (.value (.list ([Json.obj []].map PyVal.model))
        { total_count := some 2 })) manyMethodMap reqGET []).result
      = .ok ⟨200, .json (.arr [Json.obj []]), [("X-Total-Count", toString (2 : Int))]⟩ :=
  ⟨by decide, C10_theorem.2.2 [Json.obj []] 2 (by decide)⟩

end ClaimC10

section ClaimC2

open Dispatch

/-- A permission or throttle check that always denies. -/
def denyCheck : HttpRequest → Bool × Option String := fun _ => (false, some "denied")

/-- A sample-resource controller exposing `get_many`, with configurable
permission and throttle lists. -/
def mkGetManyCtlP (perms throttles : List (HttpRequest → Bool × Option String))
    (res : HandlerResult) : Controller where
  resource := sampleRes
  permissions := perms
  throttlers := throttles
  methods := [("get_many", getManyHandler res)]

/-- A sample-resource controller exposing `get_one`, with configurable
permission and throttle lists. -/
def mkGetOneCtlP (perms throttles : List (HttpRequest → Bool × Option String))
    (res : HandlerResult) : Controller where
  resource := sampleRes
  permissions := perms
  throttlers := throttles
  methods := [("get_one", getOneHandler res)]

/-- C2: the claim asserts that a failing permission check yields a 403
regardless of any other condition, including an uncoercible path
identity.  On the code, the single-entity engine coerces the path
identity before `check_permission` runs: `GET` with identity `"abc"`
(Retrieve identity field typed `int`) under an always-denying permission
raises `Http404` — the request is not answered with a 403. -/
theorem C2_counterexample :
    (single_handle (mkGetOneCtlP [denyCheck] [] (.value (.model (.obj [])) {}))
        singleMethodMap reqGET [("id", PyVal.str "abc")]).result = .error .http404
    ∧ ¬ ∃ r : HttpResponse,
        (single_handle (mkGetOneCtlP [denyCheck] [] (.value (.model (.obj [])) {}))
          singleMethodMap reqGET [("id", PyVal.str "abc")]).result = .ok r ∧ r.status = 403 := by
  have h1 : (single_handle (mkGetOneCtlP [denyCheck] [] (.value (.model (.obj [])) {}))
      singleMethodMap reqGET [("id", PyVal.str "abc")]).result = .error .http404 := rfl
  refine ⟨h1, ?_⟩
  rintro ⟨r, hr, _⟩
  exact Except.noConfusion (h1.symm.trans hr)

/-- C2 (amended): once a request has passed the stages that precede the
permission check (content-type/body validation for POST/PUT, identity
coercion for the single-entity engine), a failing Permission — or a
failing Throttle — yields a 403 with empty body and the business method
is never invoked (no recorded call), whatever the business method would
have done. -/
theorem C2_theorem :
    (∀ res : HandlerResult,
      many_handle (mkGetManyCtlP [denyCheck] [] res) manyMethodMap reqGET []
        = ⟨.ok ⟨403, .empty, []⟩, []⟩)
    ∧ (∀ res : HandlerResult,
      many_handle (mkGetManyCtlP [] [denyCheck] res) manyMethodMap reqGET []
        = ⟨.ok ⟨403, .empty, []⟩, []⟩)
    ∧ (∀ res : HandlerResult,
      single_handle (mkGetOneCtlP [denyCheck] [] res) singleMethodMap reqGET
        [("id", PyVal.str "7")] = ⟨.ok ⟨403, .empty, []⟩, []⟩) :=
  ⟨fun _ => rfl, fun _ => rfl, fun _ => rfl⟩

end ClaimC2

section ClaimC3

open Dispatch

/-- The sample resource with a Retrieve model that lacks the identity
field (`Retrieve.model_fields.get(pk)` returns nothing). -/
def sampleResNoField : Resource where
  pk := "id"
  retrieveFields := []
  createM := okModel
  updateM := okModel

/-- A controller over `sampleResNoField` exposing `get_one`. -/
def mkGetOneCtlNoField (res : HandlerResult) : Controller where
  resource := sampleResNoField
  permissions := []
  throttlers := []
  methods := [("get_one", getOneHandler res)]

/-- C3: for a single-entity request whose handler declares `pk`, the
path identity is coerced by calling the Retrieve identity field's
annotation: a segment parsing as an integer binds `pk` to that integer
when calling `get_one`; when the Retrieve model lacks the identity
field the raw string is passed through (with a logged warning); and a
`ValueError` from the coercion raises `Http404` (a 404, not a 400), the
business method never running. -/
theorem C3_theorem :
    (∀ (s : String) (n : Int), parseIntPy s = some n →
      (single_handle (mkGetOneCtl (.value (.model (.obj [])) {})) singleMethodMap reqGET
        [("id", PyVal.str s)]).calls = [("get_one", [("pk", PyVal.int n)])])
    ∧ (∀ s : String,
      (single_handle (mkGetOneCtlNoField (.value (.model (.obj [])) {})) singleMethodMap reqGET
        [("id", PyVal.str s)]).calls = [("get_one", [("pk", PyVal.str s)])])
    ∧ (∀ s : String, parseIntPy s = Option.none →
      single_handle (mkGetOneCtl (.value (.model (.obj [])) {})) singleMethodMap reqGET
        [("id", PyVal.str s)] = ⟨.error .http404, []⟩) := by
  refine ⟨fun s n h => ?_, fun s => ?_, fun s h => ?_⟩
  · simp [single_handle, dispatch_generic, base_get_controller_method, singleMethodMap,
      strLower, charLower, alookup, mkGetOneCtl, getOneHandler, mkHandler, single_transport,
      sampleRes, amerge, ainsert, aerase, queryKwargs, reqGET, constructE, h,
      check_permission, clean_args, clean_args_go, run_and_encode, encode_single, List.filter]
  · simp [single_handle, dispatch_generic, base_get_controller_method, singleMethodMap,
      strLower, charLower, alookup, mkGetOneCtlNoField, getOneHandler, mkHandler,
      single_transport, sampleResNoField, amerge, ainsert, aerase, queryKwargs, reqGET,
      check_permission, clean_args, clean_args_go, run_and_encode, encode_single, List.filter]
  · simp [single_handle, dispatch_generic, base_get_controller_method, singleMethodMap,
      strLower, charLower, alookup, mkGetOneCtl, getOneHandler, mkHandler, single_transport,
      sampleRes, amerge, ainsert, aerase, queryKwargs, reqGET, constructE, h,
      check_permission, clean_args, clean_args_go, run_and_encode, encode_single, List.filter]

/-- C3 witness: the segment `"7"` binds `pk` to the integer `7`, and
the segment `"abc"` is a 404. -/
theorem C3_witness :
    (parseIntPy "7" = some 7
      ∧ (single_handle (mkGetOneCtl (.value (.model (.obj [])) {})) singleMethodMap reqGET
          [("id", PyVal.str "7")]).calls = [("get_one", [("pk", PyVal.int 7)])])
    ∧ (parseIntPy "abc" = Option.none
      ∧ single_handle (mkGetOneCtl (.value (.model (.obj [])) {})) singleMethodMap reqGET
          [("id", PyVal.str "abc")] = ⟨.error .http404, []⟩) :=
  ⟨⟨by decide, C3_theorem.1 "7" 7 (by decide)⟩,
   ⟨by decide, C3_theorem.2.2 "abc" (by decide)⟩⟩

end ClaimC3

section ClaimC4

open Dispatch

/-- `create_one(self, data: Resource.Create, **extra)` /
`create_many(self, data: List[Resource.Create], **extra)`: the `data`
annotation is a pydantic class or a parameterized generic — either way
calling it with one positional argument raises `TypeError`, which is
what `PyType.genericT` captures. -/
def createHandler (res : HandlerResult) : Handler :=
  mkHandler ["self", "data"] [("data", PyType.genericT)] true res

/-- A sample-resource controller exposing `create_one` and
`create_many`, each answering with a fixed outcome. -/
def mkCreateCtl (resOne resMany : HandlerResult) : Controller where
  resource := sampleRes
  permissions := []
  throttlers := []
  methods := [("create_one", createHandler resOne), ("create_many", createHandler resMany)]

/-- A POST request with JSON content type and the given body. -/
def reqPOST (b : ReqBody) : HttpRequest := ⟨"POST", "application/json", b, []⟩

theorem mapValidate_ok (xs : List Json) :
    mapValidate (fun j => (Except.ok j : Except String Json)) xs = .ok xs := by
  induction xs with
  | nil => rfl
  | cons x rest ih => simp [mapValidate, ih, Except.map]

theorem validatePayload_ok_arr (xs : List Json) :
    validatePayload okModel (.arr xs) = .ok (.list (xs.map PyVal.model)) := by
  simp [validatePayload, okModel, mapValidate_ok, Except.map]

theorem clean_args_go_nil (spec : HandlerSpec) (ret : List (String × PyVal)) :
    clean_args_go spec ret [] = .ok ret := rfl

theorem clean_args_go_generic (spec : HandlerSpec) (ret : List (String × PyVal))
    (name : String) (v : PyVal) (rest : List (String × PyVal))
    (hann : alookup spec.annots name = some .genericT) :
    clean_args_go spec ret ((name, v) :: rest) = clean_args_go spec (ret ++ [(name, v)]) rest := by
  simp only [clean_args_go, hann]
  rw [if_neg]
  · simp [constructE]
  · rintro ⟨-, -, hg, -⟩
    simp [typGeneric] at hg

/-- C4: POST dispatch on the collection engine: a body that is not
valid JSON is answered with a 400 carrying the parse error before any
operation resolution (no business call); a JSON array body resolves to
`create_many`, invoked exactly once with the list of the validated
elements (one per array element); any other JSON body resolves to
`create_one`, invoked exactly once with the validated object. -/
theorem C4_theorem :
    (∀ (e : String) (resOne resMany : HandlerResult),
      many_handle (mkCreateCtl resOne resMany) manyMethodMap (reqPOST (.invalidJson e)) []
        = ⟨.ok (badReq e), []⟩)
    ∧ (∀ xs : List Json,
      (many_handle (mkCreateCtl (.value (.model (.obj [])) {}) (.value (.model (.obj [])) {}))
          manyMethodMap (reqPOST (.json (.arr xs))) []).calls
        = [("create_many", [("data", PyVal.list (xs.map PyVal.model))])]
      ∧ (xs.map PyVal.model).length = xs.length)
    ∧ (∀ fs : List (String × Json),
      (many_handle (mkCreateCtl (.value (.model (.obj [])) {}) (.value (.model (.obj [])) {}))
          manyMethodMap (reqPOST (.json (.obj fs))) []).calls
        = [("create_one", [("data", PyVal.model (.obj fs))])]) := by
  refine ⟨fun e resOne resMany => rfl, fun xs => ⟨?_, by simp⟩, fun fs => ?_⟩
  · simp [many_handle, dispatch_generic, many_get_controller_method,
      base_get_controller_method, manyMethodMap, strLower, charLower, alookup, isArr,
      mkCreateCtl, createHandler, mkHandler, reqPOST, idempotent_method, rewrite_status,
      sampleRes, validatePayload_ok_arr, ainsert, many_transport, check_permission, queryKwargs,
      amerge, clean_args, clean_args_go_generic, clean_args_go_nil, run_and_encode,
      encode_many, apply_many_headers, apply_single_headers]
  · simp [many_handle, dispatch_generic, many_get_controller_method,
      base_get_controller_method, manyMethodMap, strLower, charLower, alookup, isArr,
      mkCreateCtl, createHandler, mkHandler, reqPOST, idempotent_method, rewrite_status,
      sampleRes, validatePayload, okModel, Except.map, ainsert, many_transport, check_permission, queryKwargs,
      amerge, clean_args, clean_args_go_generic, clean_args_go_nil, run_and_encode,
      encode_many, apply_many_headers, apply_single_headers]

end ClaimC4

section ClaimC5

open Dispatch

/-- `update_one(self, pk: int, data: Resource.Update, **extra)` with a
fixed outcome. -/
def updateOneHandler (res : HandlerResult) : Handler :=
  mkHandler ["self", "pk", "data"] [("pk", PyType.intT), ("data", PyType.genericT)] true res

/-- `delete_one(self, pk: Any, **extra)` with a fixed outcome. -/
def deleteOneHandler (res : HandlerResult) : Handler :=
  mkHandler ["self", "pk"] [("pk", PyType.anyT)] true res

/-- A sample-resource controller exposing only `update_one`. -/
def mkUpdateOneCtl (res : HandlerResult) : Controller where
  resource := sampleRes
  permissions := []
  throttlers := []
  methods := [("update_one", updateOneHandler res)]

/-- A sample-resource controller exposing only `delete_one`. -/
def mkDeleteOneCtl (res : HandlerResult) : Controller where
  resource := sampleRes
  permissions := []
  throttlers := []
  methods := [("delete_one", deleteOneHandler res)]

/-- A PUT request with JSON content type and the given body. -/
def reqPUT (b : ReqBody) : HttpRequest := ⟨"PUT", "application/json", b, []⟩

/-- A DELETE request (no body, no particular content type). -/
def reqDELETE : HttpRequest := ⟨"DELETE", "", .empty, []⟩

/-- C5: success status codes are verb-dependent.  GET and PUT on a
single entity and GET on a collection answer 200; a POST on the
collection whose handler produced a 200 response is rewritten to 201,
and a DELETE whose handler produced a 200 response is rewritten to 204;
a handler response with any other status is left untouched by both
rewrites. -/
theorem C5_theorem :
    (∀ fs : List (String × Json),
      (single_handle (mkGetOneCtl (.value (.model (.obj fs)) {})) singleMethodMap reqGET
        [("id", PyVal.str "7")]).result = .ok ⟨200, .json (.obj fs), []⟩)
    ∧ (∀ fs : List (String × Json),
      (single_handle (mkUpdateOneCtl (.value (.model (.obj fs)) {})) singleMethodMap
        (reqPUT (.json (.obj []))) [("id", PyVal.str "7")]).result
        = .ok ⟨200, .json (.obj fs), []⟩)
    ∧ (∀ ds : List Json,
      (many_handle (mkGetManyCtl (.value (.list (ds.map PyVal.model)) {})) manyMethodMap reqGET []).result
        = .ok ⟨200, .json (.arr ds), []⟩)
    ∧ (∀ (b : RespBody) (hs : List (String × String)),
      (many_handle (mkCreateCtl (.value (.resp ⟨200, b, hs⟩) {}) (.value (.resp ⟨200, b, hs⟩) {}))
        manyMethodMap (reqPOST (.json (.obj []))) []).result = .ok ⟨201, b, hs⟩)
    ∧ (∀ (st : Nat) (b : RespBody) (hs : List (String × String)), st ≠ 200 →
      (many_handle (mkCreateCtl (.value (.resp ⟨st, b, hs⟩) {}) (.value (.resp ⟨st, b, hs⟩) {}))
        manyMethodMap (reqPOST (.json (.obj []))) []).result = .ok ⟨st, b, hs⟩)
    ∧ (∀ fs : List (String × Json),
      (single_handle (mkDeleteOneCtl (.value (.model (.obj fs)) {})) singleMethodMap reqDELETE
        [("id", PyVal.str "7")]).result = .ok ⟨204, .json (.obj fs), []⟩)
    ∧ (∀ (st : Nat) (b : RespBody) (hs : List (String × String)), st ≠ 200 →
      (single_handle (mkDeleteOneCtl (.value (.resp ⟨st, b, hs⟩) {})) singleMethodMap reqDELETE
        [("id", PyVal.str "7")]).result = .ok ⟨st, b, hs⟩) := by
  refine ⟨fun fs => ?_, fun fs => ?_, fun ds => ?_, fun b hs => ?_, fun st b hs hst => ?_,
    fun fs => ?_, fun st b hs hst => ?_⟩
  · simp [single_handle, dispatch_generic, base_get_controller_method, singleMethodMap,
      strLower, charLower, alookup, mkGetOneCtl, getOneHandler, mkHandler, single_transport,
      sampleRes, amerge, ainsert, aerase, queryKwargs, reqGET, constructE, parseIntPy,
      check_permission, clean_args, clean_args_go, run_and_encode, encode_single, isObj,
      apply_single_headers, List.filter]
  · simp [single_handle, dispatch_generic, base_get_controller_method, singleMethodMap,
      strLower, charLower, alookup, mkUpdateOneCtl, updateOneHandler, mkHandler,
      idempotent_method, validatePayload, okModel, Except.map, single_transport,
      sampleRes, amerge, ainsert, aerase, queryKwargs, reqPUT, constructE, parseIntPy,
      check_permission, clean_args, clean_args_go, run_and_encode, encode_single, isObj,
      apply_single_headers, List.filter]
  · show (run_and_encode encode_many "get_many"
      (getManyHandler (.value (.list (ds.map PyVal.model)) {})) []).result = _
    simp [run_and_encode, getManyHandler, mkHandler, encode_many, model_dumps_map,
      apply_many_headers, apply_single_headers]
  · simp [many_handle, dispatch_generic, many_get_controller_method,
      base_get_controller_method, manyMethodMap, strLower, charLower, alookup, isArr,
      mkCreateCtl, createHandler, mkHandler, reqPOST, idempotent_method, rewrite_status,
      sampleRes, validatePayload, okModel, Except.map, ainsert, many_transport,
      check_permission, queryKwargs, amerge, clean_args, clean_args_go_generic,
      clean_args_go_nil, run_and_encode, encode_many, apply_many_headers, apply_single_headers]
  · simp [many_handle, dispatch_generic, many_get_controller_method,
      base_get_controller_method, manyMethodMap, strLower, charLower, alookup, isArr,
      mkCreateCtl, createHandler, mkHandler, reqPOST, idempotent_method, rewrite_status,
      sampleRes, validatePayload, okModel, Except.map, ainsert, many_transport,
      check_permission, queryKwargs, amerge, clean_args, clean_args_go_generic,
      clean_args_go_nil, run_and_encode, encode_many, apply_many_headers,
      apply_single_headers, hst]
  · simp [single_handle, dispatch_generic, base_get_controller_method, singleMethodMap,
      strLower, charLower, alookup, mkDeleteOneCtl, deleteOneHandler, mkHandler,
      idempotent_method, rewrite_status, single_transport, sampleRes, amerge, ainsert,
      aerase, queryKwargs, reqDELETE, constructE, parseIntPy, check_permission,
      clean_args, clean_args_go, run_and_encode, encode_single, isObj,
      apply_single_headers, List.filter]
  · simp [single_handle, dispatch_generic, base_get_controller_method, singleMethodMap,
      strLower, charLower, alookup, mkDeleteOneCtl, deleteOneHandler, mkHandler,
      idempotent_method, rewrite_status, single_transport, sampleRes, amerge, ainsert,
      aerase, queryKwargs, reqDELETE, constructE, parseIntPy, check_permission,
      clean_args, clean_args_go, run_and_encode, encode_single, isObj,
      apply_single_headers, List.filter, hst]

/-- C5 witness: a POST whose handler produced a 418 response keeps 418,
and so does such a DELETE. -/
theorem C5_witness :
    ((418 : Nat) ≠ 200
      ∧ (many_handle (mkCreateCtl (.value (.resp ⟨418, .empty, []⟩) {})
            (.value (.resp ⟨418, .empty, []⟩) {}))
          manyMethodMap (reqPOST (.json (.obj []))) []).result = .ok ⟨418, .empty, []⟩)
    ∧ ((418 : Nat) ≠ 200
      ∧ (single_handle (mkDeleteOneCtl (.value (.resp ⟨418, .empty, []⟩) {})) singleMethodMap
          reqDELETE [("id", PyVal.str "7")]).result = .ok ⟨418, .empty, []⟩) :=
  ⟨⟨by decide, C5_theorem.2.2.2.2.1 418 .empty [] (by decide)⟩,
   ⟨by decide, C5_theorem.2.2.2.2.2.2 418 .empty [] (by decide)⟩⟩

end ClaimC5

section ClaimC6

open Dispatch

/-- The canonical dump a tagging validator produces: the payload
wrapped together with the name of the schema variant that validated
it. -/
def tagDump (tag : String) (j : Json) : Json :=
  .obj [("via", .str tag), ("payload", j)]

/-- A validator that accepts everything and records which schema
variant ran — used to observe which model class `_idempotent_method`
validated against. -/
def tagModel (tag : String) : PModel := ⟨fun j => .ok (tagDump tag j)⟩

/-- A validator that rejects everything with a fixed error text. -/
def failModel (e : String) : PModel := ⟨fun _ => .error e⟩

/-- `update_many(self, data: List[Resource.Update], **extra)` with a
fixed outcome. -/
def updateManyHandler (res : HandlerResult) : Handler :=
  mkHandler ["self", "data"] [("data", PyType.genericT)] true res

/-- `delete_many(self, **extra)` with a fixed outcome. -/
def deleteManyHandler (res : HandlerResult) : Handler :=
  mkHandler ["self"] [] true res

/-- A collection controller with configurable Create/Update validators,
exposing `update_many`, `delete_many`, `create_one` and `create_many`. -/
def mkBulkCtl (vc vu : PModel) : Controller where
  resource := { pk := "id", retrieveFields := [("id", PyType.intT)], createM := vc, updateM := vu }
  permissions := []
  throttlers := []
  methods := [("update_many", updateManyHandler (.value (.model (.obj [])) {})),
              ("delete_many", deleteManyHandler (.value (.list []) {})),
              ("create_one", createHandler (.value (.model (.obj [])) {})),
              ("create_many", createHandler (.value (.model (.obj [])) {}))]

/-- C6: for POST/PUT with a payload model, the content type must be
exactly `application/json` and the body non-empty, each violation a 400
answered before the business method can run; the payload is validated
against the Create variant for POST and the Update variant for PUT,
element-wise for a list payload; a validation failure is a 400 carrying
the validator's error text with no business call; DELETE is exempt from
the content-type requirement. -/
theorem C6_theorem :
    (∀ (ct : String) (vc vu : PModel), ct ≠ "application/json" →
      many_handle (mkBulkCtl vc vu) manyMethodMap ⟨"PUT", ct, .json (.obj []), []⟩ []
        = ⟨.ok (badReq ("Content Type " ++ ct ++ " not allowed !")), []⟩)
    ∧ (∀ vc vu : PModel,
      many_handle (mkBulkCtl vc vu) manyMethodMap ⟨"PUT", "application/json", .empty, []⟩ []
        = ⟨.ok (badReq "Request has empty body !"), []⟩)
    ∧ (∀ (vc vu : PModel) (fs : List (String × Json)) (e : String),
        vu.validate (.obj fs) = .error e →
      many_handle (mkBulkCtl vc vu) manyMethodMap
          ⟨"PUT", "application/json", .json (.obj fs), []⟩ []
        = ⟨.ok (badReq e), []⟩)
    ∧ (∀ j1 j2 : Json,
      (many_handle (mkBulkCtl (tagModel "create") (tagModel "update")) manyMethodMap
          ⟨"PUT", "application/json", .json (.arr [j1, j2]), []⟩ []).calls
        = [("update_many", [("data",
            PyVal.list [.model (tagDump "update" j1), .model (tagDump "update" j2)])])])
    ∧ (∀ fs : List (String × Json),
      (many_handle (mkBulkCtl (tagModel "create") (tagModel "update")) manyMethodMap
          ⟨"POST", "application/json", .json (.obj fs), []⟩ []).calls
        = [("create_one", [("data", PyVal.model (tagDump "create" (.obj fs)))])])
    ∧ (∀ ct : String,
      many_handle (mkBulkCtl (tagModel "create") (tagModel "update")) manyMethodMap
          ⟨"DELETE", ct, .empty, []⟩ []
        = ⟨.ok ⟨204, .json (.arr []), []⟩, [("delete_many", [])]⟩) := by
  refine ⟨fun ct vc vu hct => ?_, fun vc vu => ?_, fun vc vu fs e hv => ?_,
    fun j1 j2 => ?_, fun fs => ?_, fun ct => ?_⟩
  · simp [many_handle, dispatch_generic, many_get_controller_method,
      base_get_controller_method, manyMethodMap, strLower, charLower, alookup,
      mkBulkCtl, updateManyHandler, mkHandler, idempotent_method, hct]
  · simp [many_handle, dispatch_generic, many_get_controller_method,
      base_get_controller_method, manyMethodMap, strLower, charLower, alookup,
      mkBulkCtl, updateManyHandler, mkHandler, idempotent_method]
  · simp [many_handle, dispatch_generic, many_get_controller_method,
      base_get_controller_method, manyMethodMap, strLower, charLower, alookup,
      mkBulkCtl, updateManyHandler, mkHandler, idempotent_method, validatePayload,
      Except.map, hv]
  · simp [many_handle, dispatch_generic, many_get_controller_method,
      base_get_controller_method, manyMethodMap, strLower, charLower, alookup,
      mkBulkCtl, updateManyHandler, mkHandler, idempotent_method, validatePayload,
      tagModel, mapValidate, Except.map, ainsert, many_transport, check_permission,
      queryKwargs, amerge, clean_args, clean_args_go_generic, clean_args_go_nil,
      run_and_encode, encode_many, apply_many_headers, apply_single_headers]
  · simp [many_handle, dispatch_generic, many_get_controller_method,
      base_get_controller_method, manyMethodMap, strLower, charLower, alookup, isArr,
      mkBulkCtl, createHandler, mkHandler, idempotent_method, rewrite_status,
      validatePayload, tagModel, Except.map, ainsert, many_transport, check_permission,
      queryKwargs, amerge, clean_args, clean_args_go_generic, clean_args_go_nil,
      run_and_encode, encode_many, apply_many_headers, apply_single_headers]
  · by_cases hct : ct = "application/json" <;>
      simp [many_handle, dispatch_generic, many_get_controller_method,
        base_get_controller_method, manyMethodMap, strLower, charLower, alookup,
        mkBulkCtl, deleteManyHandler, mkHandler, idempotent_method, rewrite_status,
        many_transport, check_permission, queryKwargs, amerge, clean_args,
        clean_args_go_nil, run_and_encode, encode_many, model_dumps,
        apply_many_headers, apply_single_headers, hct]

/-- C6 witness: a PUT with content type `text/plain` is a 400, and a
PUT whose Update validation fails is a 400 carrying the validator's
error text. -/
theorem C6_witness :
    ((("text/plain" : String) ≠ "application/json")
      ∧ many_handle (mkBulkCtl (tagModel "create") (tagModel "update")) manyMethodMap
          ⟨"PUT", "text/plain", .json (.obj []), []⟩ []
        = ⟨.ok (badReq "Content Type text/plain not allowed !"), []⟩)
    ∧ ((failModel "field x missing").validate (.obj []) = .error "field x missing"
      ∧ many_handle (mkBulkCtl (tagModel "create") (failModel "field x missing")) manyMethodMap
          ⟨"PUT", "application/json", .json (.obj []), []⟩ []
        = ⟨.ok (badReq "field x missing"), []⟩) :=
  ⟨⟨by decide, C6_theorem.1 "text/plain" (tagModel "create") (tagModel "update") (by decide)⟩,
   ⟨rfl, C6_theorem.2.2.1 (tagModel "create") (failModel "field x missing") [] "field x missing" rfl⟩⟩

end ClaimC6

section ClaimC7

open Dispatch

/-- A handler signature with one `str`-annotated parameter `q`. -/
def strQSpec : HandlerSpec := ⟨["self", "q"], [("q", PyType.strT)], false⟩

/-- A handler signature with one `int`-annotated parameter `limit`. -/
def intQSpec : HandlerSpec := ⟨["self", "limit"], [("limit", PyType.intT)], false⟩

/-- A handler signature with one `list`-annotated parameter `xs`. -/
def listQSpec : HandlerSpec := ⟨["self", "xs"], [("xs", PyType.listT)], false⟩

/-- A handler signature with only a `**kwargs` catch-all. -/
def varkwSpec : HandlerSpec := ⟨["self"], [], true⟩

/-- A handler signature with neither explicit parameters nor a
catch-all. -/
def bareSpec : HandlerSpec := ⟨["self"], [], false⟩

/-- C7: the claim asserts that a multi-element query value passes
through argument binding unchanged.  On the code, the non-unwrapped
branch calls the annotated type on the whole value: with a `str`
annotation, the two-element value `['a', 'b']` is replaced by the
string `"['a', 'b']"`. -/
theorem C7_counterexample :
    clean_args strQSpec [("q", PyVal.list [.str "a", .str "b"])]
      = .ok [("q", PyVal.str "[\x27a\x27, \x27b\x27]")]
    ∧ clean_args strQSpec [("q", PyVal.list [.str "a", .str "b"])]
      ≠ .ok [("q", PyVal.list [.str "a", .str "b"])] := by
  have h1 : clean_args strQSpec [("q", PyVal.list [.str "a", .str "b"])]
      = .ok [("q", PyVal.str "[\x27a\x27, \x27b\x27]")] := rfl
  refine ⟨h1, fun h => ?_⟩
  have h2 := h1.symm.trans h
  simp at h2

/-- C7 (amended): for an annotated parameter with a non-`Any`,
non-generic plain type, a single-element list value not already of that
type is unwrapped and its element passed to the type's one-argument
constructor; any other value (in particular a multi-element list) is
passed whole to that constructor, the raw value surviving only when the
construction raises; a single-element list already of the annotated
type is not unwrapped; a name absent from the annotations is kept (with
single-element unwrapping) exactly when the handler declares a
catch-all keyword parameter, and is dropped silently otherwise. -/
theorem C7_theorem :
    (∀ (s : String) (n : Int), parseIntPy s = some n →
      clean_args intQSpec [("limit", PyVal.list [.str s])] = .ok [("limit", PyVal.int n)])
    ∧ (∀ (v1 v2 : PyVal) (vs : List PyVal),
      clean_args strQSpec [("q", PyVal.list (v1 :: v2 :: vs))]
        = .ok [("q", PyVal.str (pyStr (.list (v1 :: v2 :: vs))))])
    ∧ (∀ (v1 v2 : PyVal) (vs : List PyVal),
      clean_args intQSpec [("limit", PyVal.list (v1 :: v2 :: vs))]
        = .ok [("limit", PyVal.list (v1 :: v2 :: vs))])
    ∧ (∀ v : PyVal,
      clean_args listQSpec [("xs", PyVal.list [v])] = .ok [("xs", PyVal.list [v])])
    ∧ (∀ v : PyVal,
      clean_args varkwSpec [("extra", PyVal.list [v])] = .ok [("extra", v)])
    ∧ (∀ s : String,
      clean_args varkwSpec [("extra", PyVal.str s)] = .ok [("extra", PyVal.str s)])
    ∧ (∀ v : PyVal,
      clean_args bareSpec [("extra", v)] = .ok []) := by
  refine ⟨fun s n h => ?_, fun v1 v2 vs => ?_, fun v1 v2 vs => ?_, fun v => ?_,
    fun v => ?_, fun s => ?_, fun v => ?_⟩
  · simp [clean_args, clean_args_go, alookup, intQSpec, constructE, h, typGeneric,
      pyIsinstance]
  · simp [clean_args, clean_args_go, alookup, strQSpec, constructE, typGeneric,
      pyIsinstance]
  · simp [clean_args, clean_args_go, alookup, intQSpec, constructE, typGeneric,
      pyIsinstance]
  · simp [clean_args, clean_args_go, alookup, listQSpec, constructE, typGeneric,
      pyIsinstance]
  · simp [clean_args, clean_args_go, alookup, varkwSpec]
  · simp [clean_args, clean_args_go, alookup, varkwSpec]
  · simp [clean_args, clean_args_go, alookup, bareSpec]

/-- C7 witness: the single-element value `["7"]` with an `int`
annotation binds the integer `7`. -/
theorem C7_witness :
    parseIntPy "7" = some 7
    ∧ clean_args intQSpec [("limit", PyVal.list [.str "7"])] = .ok [("limit", PyVal.int 7)] :=
  ⟨by decide, C7_theorem.1 "7" 7 (by decide)⟩

end ClaimC7

section ClaimC8

open Routing

theorem hasSub_extend (p a s : List Char) (h : hasSub p s = true) :
    hasSub p (a ++ s) = true := by
  induction a with
  | nil => simpa using h
  | cons c cs ih => simp [hasSub, ih]

theorem all_ne_append {a b : List Char} {ch : Char}
    (ha : ∀ c ∈ a, c ≠ ch) (hb : ∀ c ∈ b, c ≠ ch) : ∀ c ∈ a ++ b, c ≠ ch := by
  intro c hc
  rcases List.mem_append.mp hc with h | h
  · exact ha c h
  · exact hb c h

theorem slash_ne_lt : ∀ c ∈ ("/" : String).data, c ≠ '<' := by decide

theorem hasSub_pk (pk b : List Char) :
    hasSub (['/', '<'] ++ (pk ++ ['>'])) (['/', '<'] ++ (pk ++ (['>'] ++ b))) = true := by
  have h := hasSub_append_left (['/', '<'] ++ (pk ++ ['>'])) b
  simpa [List.append_assoc] using h

/-- C8: `register` appends, for each declared action, exactly one route
— placed under the single-entity path exactly when the descriptor has
`detail=True` — followed by the two baseline CRUD routes, so every
action route precedes the baselines in the route list; and provided
none of the url fragments contains a `<` of its own, a generated action
route contains the identity path segment `/<pk>` if and only if its
descriptor has `detail=True`. -/
theorem C8_theorem :
    ∀ (r : Router) (url : String) (ctl : CtlRouteMeta),
      stripSlash url = url →
      (∀ c ∈ r.base_url.data, c ≠ '<') →
      (∀ c ∈ url.data, c ≠ '<') →
      (∀ m ∈ ctl.mappings, ∀ c ∈ m.url_path.data, c ≠ '<') →
      ((register r url ctl).routes
          = r.routes ++ ctl.mappings.map (actionRoute r.base_url url ctl.pk)
            ++ [ { route := r.base_url ++ "/" ++ url ++ ("/<" ++ ctl.pk ++ ">")
                   view := ⟨.single, Option.none⟩
                   name := url ++ "-retrieve" },
                 { route := r.base_url ++ "/" ++ url
                   view := ⟨.many, Option.none⟩
                   name := url ++ "-many" } ])
      ∧ ∀ m ∈ ctl.mappings,
          hasPkSeg (actionRoute r.base_url url ctl.pk m).route ctl.pk = m.detail := by
  intro r url ctl hstrip hbase hurl hpaths
  constructor
  · simp only [register, hstrip]
  · intro m hm
    have hpath := hpaths m hm
    cases hdet : m.detail with
    | true =>
        simp only [actionRoute, hdet, if_pos, hasPkSeg, String.data_append,
          List.append_assoc]
        exact hasSub_extend _ _ _ (hasSub_extend _ _ _ (hasSub_extend _ _ _
          (hasSub_pk _ _)))
    | false =>
        simp only [actionRoute, hdet, if_neg, Bool.false_eq_true, not_false_iff,
          hasPkSeg, String.data_append, List.append_assoc]
        apply hasSub_eq_false '<' 
        · exact List.mem_append_left _ (by decide)
        · exact all_ne_append hbase (all_ne_append slash_ne_lt
            (all_ne_append hurl (all_ne_append slash_ne_lt hpath)))

/-- C8 witness: registering a controller with one detail action and one
collection action at `sample` under base `api`. -/
theorem C8_witness :
    (stripSlash "sample" = "sample"
      ∧ (∀ c ∈ ("api" : String).data, c ≠ '<')
      ∧ (∀ c ∈ ("sample" : String).data, c ≠ '<')
      ∧ (∀ m ∈ [MethodMapping.mk ["GET"] true "act" "act",
                 MethodMapping.mk ["GET"] false "act-many" "act_many"],
          ∀ c ∈ m.url_path.data, c ≠ '<'))
    ∧ ((register ⟨"api", []⟩ "sample"
          ⟨"id", [MethodMapping.mk ["GET"] true "act" "act",
                  MethodMapping.mk ["GET"] false "act-many" "act_many"]⟩).routes
        = [] ++ [MethodMapping.mk ["GET"] true "act" "act",
                 MethodMapping.mk ["GET"] false "act-many" "act_many"].map
                  (actionRoute "api" "sample" "id")
          ++ [ { route := "api" ++ "/" ++ "sample" ++ ("/<" ++ "id" ++ ">")
                 view := ⟨.single, Option.none⟩
                 name := "sample" ++ "-retrieve" },
               { route := "api" ++ "/" ++ "sample"
                 view := ⟨.many, Option.none⟩
                 name := "sample" ++ "-many" } ]
      ∧ ∀ m ∈ [MethodMapping.mk ["GET"] true "act" "act",
               MethodMapping.mk ["GET"] false "act-many" "act_many"],
          hasPkSeg (actionRoute "api" "sample" "id" m).route "id" = m.detail) :=
  ⟨⟨by decide, by decide, by decide, by decide⟩,
   C8_theorem ⟨"api", []⟩ "sample"
     ⟨"id", [MethodMapping.mk ["GET"] true "act" "act",
             MethodMapping.mk ["GET"] false "act-many" "act_many"]⟩
     (by decide) (by decide) (by decide) (by decide)⟩

end ClaimC8

section ClaimC9

open Swagger

theorem pydantic_components_last (ms : List PydModel) (m : PydModel) :
    Dispatch.alookup (pydantic_components (ms ++ [m])) m.name = some m.schema := by
  simp [pydantic_components, List.foldl_append, Dispatch.alookup_ainsert_self]

/-- A resource whose three schema variants carry the nested-class names
of the source (`Create`/`Update`/`Retrieve`) and arbitrary generated
JSON schemas and `$defs`; the three model objects are distinct. -/
def c9res (sc su sr : Json) (dc du dr : List (String × Json)) : SwResource where
  pk := "id"
  create := ⟨0, "Create", sc, dc⟩
  update := ⟨1, "Update", su, du⟩
  retrieve := ⟨2, "Retrieve", sr, dr⟩

/-- A controller over that resource whose `get_many` carries the
`List[Resource.Retrieve]` return hint of the sample controller. -/
def c9ctl (sc su sr : Json) (dc du dr : List (String × Json)) : SwController where
  name := "SampleController"
  resource := c9res sc su sr dc du dr
  handlers := [("get_one", ⟨[]⟩),
               ("get_many", ⟨[("return", .listOf (.model (c9res sc su sr dc du dr).retrieve))]⟩),
               ("create_one", ⟨[]⟩)]

/-- The route table after registering that controller alone. -/
def c9routes (sc su sr : Json) (dc du dr : List (String × Json)) : List SwRoute :=
  baselineRoutes "api" "sample" (c9ctl sc su sr dc du dr)

/-- The collection route of that registration. -/
def c9coll (sc su sr : Json) (dc du dr : List (String × Json)) : SwRoute :=
  { route := "api" ++ "/" ++ "sample"
    methodMap := Dispatch.manyMethodMap
    ctl := c9ctl sc su sr dc du dr }

/-- The first of two registered controllers of the counterexample:
the sample controller with its own `Retrieve` schema. -/
def c9ctlA : SwController where
  name := "SampleController"
  resource := { pk := "id"
                create := ⟨0, "Create", .obj [("t", .str "A-C")], []⟩
                update := ⟨1, "Update", .obj [("t", .str "A-U")], []⟩
                retrieve := ⟨2, "Retrieve", .obj [("t", .str "A-R")], []⟩ }
  handlers := [("get_one", ⟨[]⟩), ("get_many", ⟨[]⟩), ("create_one", ⟨[]⟩)]

/-- The second registered controller, over a different resource whose
nested schema classes carry the same names (`Create`/`Update`/
`Retrieve`), as every resource's do. -/
def c9ctlB : SwController where
  name := "AlterController"
  resource := { pk := "id"
                create := ⟨3, "Create", .obj [("t", .str "B-C")], []⟩
                update := ⟨4, "Update", .obj [("t", .str "B-U")], []⟩
                retrieve := ⟨5, "Retrieve", .obj [("t", .str "B-R")], []⟩ }
  handlers := [("get_one", ⟨[]⟩), ("get_many", ⟨[]⟩), ("create_one", ⟨[]⟩)]

/-- The route table after registering both controllers. -/
def c9cexRoutes : List SwRoute :=
  baselineRoutes "api" "sample" c9ctlA ++ baselineRoutes "api" "alter" c9ctlB

/-- The collection route of the first controller's registration. -/
def c9cexCollA : SwRoute :=
  { route := "api" ++ "/" ++ "sample"
    methodMap := Dispatch.manyMethodMap
    ctl := c9ctlA }

/-- The closed sample instantiation of the single-controller route
table: generated schemas as pydantic emits them for the sample
resource. -/
def c9sampleRoutes : List SwRoute :=
  c9routes (.obj [("title", .str "Create"), ("type", .str "object")])
    (.obj [("title", .str "Update"), ("type", .str "object")])
    (.obj [("title", .str "Retrieve"), ("type", .str "object")])
    [] [] []

/-- The collection route of that registration. -/
def c9sampleColl : SwRoute :=
  c9coll (.obj [("title", .str "Create"), ("type", .str "object")])
    (.obj [("title", .str "Update"), ("type", .str "object")])
    (.obj [("title", .str "Retrieve"), ("type", .str "object")])
    [] [] []

set_option maxRecDepth 100000 in
set_option maxHeartbeats 4000000 in
/-- C9: the claim quantifies over every controller registered on the
router.  On the code, `_model_ref_name` is the bare class `__name__`
— `"Retrieve"` for every resource's Retrieve variant — and
`_pydantic_components` assigns `schemas[name] = js`, the last
registered resource overwriting the earlier ones.  With two registered
controllers over distinct resources, the first controller's collection
GET still references `#/components/schemas/Retrieve`, but the schema
stored under that key is the second controller's; the first
controller's Retrieve schema is absent, so the round-trip fails for
it. -/
theorem C9_counterexample : ¬ roundTrip c9cexRoutes c9cexCollA := by
  intro h
  have h2 := h.2
  simp only [c9cexCollA, c9ctlA] at h2
  rw [show Dispatch.alookup (buildDoc c9cexRoutes).componentsSchemas "Retrieve"
      = some (.obj [("t", .str "B-R")]) from rfl] at h2
  simp at h2

set_option maxRecDepth 100000 in
set_option maxHeartbeats 8000000 in
/-- C9 (amended): the round-trip holds for a router with a single
registered controller (generally: whenever no later-pooled model shares
the Retrieve schema's name): the registered sample controller's
collection GET documents an array of `$ref`s naming the `Retrieve`
component key and `components.schemas` holds exactly its Retrieve
schema there; and in general `_pydantic_components` leaves the
last-pooled model's schema under that model's name. -/
theorem C9_theorem :
    roundTrip c9sampleRoutes c9sampleColl
    ∧ (∀ (ms : List PydModel) (m : PydModel),
        Dispatch.alookup (pydantic_components (ms ++ [m])) m.name = some m.schema) :=
  ⟨⟨rfl, rfl⟩, pydantic_components_last⟩

end ClaimC9
